import Mathlib

/-!
Verification of the audio-quality analysis and batch-processing workflow of
the ankaido repository (`audio/audio_checker.py`, `audio/audio_utils.py`,
`audio/config.py`).

Modelling conventions:
- Python floats are modelled as rationals (`ℚ`); no float rounding occurs on
  the verified paths (values are only passed through, counted, or divided).
- Python strings are modelled as Lean `String`s; character-level work is done
  on `List Char`.
- A Python call that may raise is modelled as `Except String α`, the error
  carrying `str(e)`.
- The remote OpenAI call, the filesystem and the duration probe are external
  effects; they are modelled as explicit oracle parameters.
-/

set_option maxRecDepth 20000

namespace Ankaido

/-- The closed enumeration `AudioQualityIssue` of `audio/audio_checker.py`. -/
inductive AudioQualityIssue where
  | AUDIBLE_BREATH
  | BACKGROUND_NOISE
  | MOUTH_SOUNDS
  | DISTORTION
  | VOLUME_INCONSISTENCY
  | PRONUNCIATION_ERROR
  | WORD_MISMATCH
  | UNCLEAR_SPEECH
deriving DecidableEq, Repr

/-- The string `.value` of each `AudioQualityIssue` enum member. -/
def AudioQualityIssue.value : AudioQualityIssue → String
  | .AUDIBLE_BREATH => "audible_breath"
  | .BACKGROUND_NOISE => "background_noise"
  | .MOUTH_SOUNDS => "mouth_sounds"
  | .DISTORTION => "distortion"
  | .VOLUME_INCONSISTENCY => "volume_inconsistency"
  | .PRONUNCIATION_ERROR => "pronunciation_error"
  | .WORD_MISMATCH => "word_mismatch"
  | .UNCLEAR_SPEECH => "unclear_speech"

/-- Python `AudioQualityIssue(s)`: enum lookup by value. `none` models the
`ValueError` raised on an unknown token (line 261-264 skips it). -/
def issueOfValue (s : String) : Option AudioQualityIssue :=
  if s = "audible_breath" then some .AUDIBLE_BREATH
  else if s = "background_noise" then some .BACKGROUND_NOISE
  else if s = "mouth_sounds" then some .MOUTH_SOUNDS
  else if s = "distortion" then some .DISTORTION
  else if s = "volume_inconsistency" then some .VOLUME_INCONSISTENCY
  else if s = "pronunciation_error" then some .PRONUNCIATION_ERROR
  else if s = "word_mismatch" then some .WORD_MISMATCH
  else if s = "unclear_speech" then some .UNCLEAR_SPEECH
  else none

/-- The `AudioAnalysisResult` dataclass. Field types follow the dataclass
annotations (`confidence_score: float` as `ℚ`, `audio_duration:
Optional[float]` as `Option ℚ`). -/
structure AudioAnalysisResult where
  is_word_correct : Bool
  expected_word : String
  detected_issues : List AudioQualityIssue
  confidence_score : ℚ
  transcript : String
  detailed_feedback : String
  suggestions : List String
  audio_duration : Option ℚ := none
deriving DecidableEq, Repr

/-- The synthetic error result built in the `except` branch of
`AudioChecker.batch_check_audio_files` (lines 338-346), with `errMsg`
standing for `str(e)`. -/
def errorResult (expected_word errMsg : String) : AudioAnalysisResult :=
  { is_word_correct := false
    expected_word := expected_word
    detected_issues := []
    confidence_score := 0
    transcript := ""
    detailed_feedback := "Error analyzing file: " ++ errMsg
    suggestions := ["Check if the audio file exists and is readable."]
    audio_duration := none }

/-- The loop body of `batch_check_audio_files` for one `(audio_path,
expected_word)` item: the `check_audio_file` call is abstracted by the
oracle `analyze`; `Except.ok` is a normal return and `Except.error e`
models a raised exception with `str(e) = e`. -/
def checkItem (analyze : String → String → Except String AudioAnalysisResult)
    (item : String × String) : AudioAnalysisResult :=
  match analyze item.1 item.2 with
  | .ok r => r
  | .error e => errorResult item.2 e

/-- `AudioChecker.batch_check_audio_files` (lines 316-349): start from an
empty `results` list and append one result per item, in input order. -/
def batch_check_audio_files
    (analyze : String → String → Except String AudioAnalysisResult)
    (audio_files : List (String × String)) : List AudioAnalysisResult :=
  audio_files.foldl (fun results item => results ++ [checkItem analyze item]) []

/-- JSON values, the image of Python's json.loads. A number is kept as the
exact decimal it was written as: `num m e` denotes `m * 10 ^ e`. -/
inductive JValue where
  | null
  | bool (b : Bool)
  | num (mantissa : Int) (exp10 : Int)
  | str (s : String)
  | arr (elems : List JValue)
  | obj (fields : List (String × JValue))

/-- The rational value of a decimal mantissa and power-of-ten exponent:
`num m e` denotes `m * 10 ^ e`. -/
def decimalToRat (m e : Int) : ℚ := (m : ℚ) * (10 : ℚ) ^ e

/-- JSON insignificant whitespace. -/
def jsonWs (c : Char) : Bool :=
  c = ' ' || c = '\t' || c = '\n' || c = '\r'

/-- Drop leading JSON whitespace. -/
def skipWs : List Char → List Char
  | [] => []
  | c :: cs => if jsonWs c then skipWs cs else c :: cs

/-- Parse the body of a JSON string after the opening quote, returning the
decoded characters and the remainder after the closing quote. Unicode
escapes are not modelled (absent from every analysed response). -/
def parseJString : List Char → Option (List Char × List Char)
  | [] => none
  | '"' :: rest => some ([], rest)
  | '\\' :: e :: rest =>
      match (match e with
        | '"' => some '"'
        | '\\' => some '\\'
        | '/' => some '/'
        | 'b' => some (Char.ofNat 8)
        | 'f' => some (Char.ofNat 12)
        | 'n' => some '\n'
        | 'r' => some '\r'
        | 't' => some '\t'
        | _ => none) with
      | none => none
      | some c =>
          match parseJString rest with
          | none => none
          | some (s, rem) => some (c :: s, rem)
  | c :: rest =>
      match parseJString rest with
      | none => none
      | some (s, rem) => some (c :: s, rem)

/-- Decimal digits to a natural number. -/
def digitsToNat (ds : List Char) : ℕ :=
  ds.foldl (fun acc c => 10 * acc + (c.toNat - 48)) 0

/-- Parse an optional JSON exponent suffix, adjusting the power-of-ten
exponent of the decimal already read. -/
def parseJExp (m e : Int) (cs : List Char) : Option ((Int × Int) × List Char) :=
  match cs with
  | 'e' :: rest => parseJExpDigits m e rest
  | 'E' :: rest => parseJExpDigits m e rest
  | _ => some ((m, e), cs)
where
  parseJExpDigits (m e : Int) (cs : List Char) : Option ((Int × Int) × List Char) :=
    let (negExp, cs1) : Bool × List Char :=
      match cs with
      | '+' :: rest => (false, rest)
      | '-' :: rest => (true, rest)
      | _ => (false, cs)
    let (ds, cs2) := cs1.span Char.isDigit
    if ds = [] then none
    else
      let ex : Int := digitsToNat ds
      some ((m, if negExp then e - ex else e + ex), cs2)

/-- Parse a JSON number as an exact decimal (mantissa, power-of-ten
exponent). -/
def parseJNumber (cs : List Char) : Option ((Int × Int) × List Char) :=
  let (neg, cs1) : Bool × List Char :=
    match cs with
    | '-' :: rest => (true, rest)
    | _ => (false, cs)
  let (ip, cs2) := cs1.span Char.isDigit
  if ip = [] then none
  else
    let signed : ℕ → Int := fun n => if neg then -(n : Int) else (n : Int)
    match cs2 with
    | '.' :: rest =>
        let (fp, cs3) := rest.span Char.isDigit
        if fp = [] then none
        else
          parseJExp (signed (digitsToNat ip * 10 ^ fp.length + digitsToNat fp))
            (-(fp.length : Int)) cs3
    | _ => parseJExp (signed (digitsToNat ip)) 0 cs2

mutual

/-- Parse one JSON value (fuel-bounded recursive descent). -/
def parseJValue : ℕ → List Char → Option (JValue × List Char)
  | 0, _ => none
  | fuel + 1, cs =>
      match skipWs cs with
      | 'n' :: 'u' :: 'l' :: 'l' :: rest => some (.null, rest)
      | 't' :: 'r' :: 'u' :: 'e' :: rest => some (.bool true, rest)
      | 'f' :: 'a' :: 'l' :: 's' :: 'e' :: rest => some (.bool false, rest)
      | '"' :: rest =>
          match parseJString rest with
          | none => none
          | some (s, rem) => some (.str (String.mk s), rem)
      | '[' :: rest =>
          match skipWs rest with
          | ']' :: rem => some (.arr [], rem)
          | _ =>
              match parseJElems fuel rest with
              | none => none
              | some (xs, rem) => some (.arr xs, rem)
      | '\x7b' :: rest =>
          match skipWs rest with
          | '\x7d' :: rem => some (.obj [], rem)
          | _ =>
              match parseJMembers fuel rest with
              | none => none
              | some (kvs, rem) => some (.obj kvs, rem)
      | other =>
          match parseJNumber other with
          | none => none
          | some ((m, e), rem) => some (.num m e, rem)

/-- Parse the comma-separated elements of a non-empty JSON array, including
the closing bracket. -/
def parseJElems : ℕ → List Char → Option (List JValue × List Char)
  | 0, _ => none
  | fuel + 1, cs =>
      match parseJValue fuel cs with
      | none => none
      | some (v, rem) =>
          match skipWs rem with
          | ',' :: rem2 =>
              match parseJElems fuel rem2 with
              | none => none
              | some (vs, rem3) => some (v :: vs, rem3)
          | ']' :: rem2 => some ([v], rem2)
          | _ => none

/-- Parse the comma-separated members of a non-empty JSON object, including
the closing brace. -/
def parseJMembers : ℕ → List Char → Option (List (String × JValue) × List Char)
  | 0, _ => none
  | fuel + 1, cs =>
      match skipWs cs with
      | '"' :: rest =>
          match parseJString rest with
          | none => none
          | some (k, rem) =>
              match skipWs rem with
              | ':' :: rem2 =>
                  match parseJValue fuel rem2 with
                  | none => none
                  | some (v, rem3) =>
                      match skipWs rem3 with
                      | ',' :: rem4 =>
                          match parseJMembers fuel rem4 with
                          | none => none
                          | some (kvs, rem5) => some ((String.mk k, v) :: kvs, rem5)
                      | '\x7d' :: rem4 => some ([(String.mk k, v)], rem4)
                      | _ => none
              | _ => none
      | _ => none

end

/-- Modelled from Python's json.loads restricted to the JSON subset above:
parse one value and require that only whitespace remains. -/
def jsonLoads (s : String) : Option JValue :=
  match parseJValue (s.length + 1) s.toList with
  | some (v, rest) => if skipWs rest = [] then some v else none
  | none => none

/-- Lookup in a parsed JSON object: json.loads keeps the LAST value of a
duplicated key, so later bindings shadow earlier ones. -/
def jlookup : List (String × JValue) → String → Option JValue
  | [], _ => none
  | (k, v) :: rest, key =>
      match jlookup rest key with
      | some v' => some v'
      | none => if k = key then some v else none

/-- Python `k in result_data`. -/
def hasKey (fields : List (String × JValue)) (k : String) : Bool :=
  (jlookup fields k).isSome

/-- One `if key not in result_data: result_data[key] = default` statement
of lines 237-248 of audio_checker.py. -/
def addDefault (fields : List (String × JValue)) (k : String) (d : JValue) :
    List (String × JValue) :=
  if hasKey fields k then fields else fields ++ [(k, d)]

/-- Lines 237-248 of audio_checker.py: assign each absent field its default
in result_data (`detailed_feedback` defaults to the stripped response
text). -/
def fillDefaults (fields : List (String × JValue)) (response_text : String) :
    List (String × JValue) :=
  addDefault (addDefault (addDefault (addDefault (addDefault (addDefault
    fields "is_word_correct" (.bool false))
    "confidence_score" (.num 5 (-1)))
    "transcript" (.str ""))
    "detected_issues" (.arr []))
    "detailed_feedback" (.str response_text))
    "suggestions" (.arr [])

/-- Python whitespace stripped by str.strip(). -/
def pyWs (c : Char) : Bool :=
  c = ' ' || c = '\t' || c = '\n' || c = '\r' || c = '\x0b' || c = '\x0c'

/-- Python str.strip(). -/
def pyStrip (s : String) : String :=
  String.mk (((s.toList.dropWhile pyWs).reverse.dropWhile pyWs).reverse)

/-- Python str.lower(), modelled on ASCII letters and the Lithuanian
diacritics; every other character is unchanged (such characters are removed
downstream either way on the verified paths). -/
def pyLowerChar (c : Char) : Char :=
  if 'A' ≤ c && c ≤ 'Z' then Char.ofNat (c.toNat + 32)
  else if c = 'Ą' then 'ą' else if c = 'Č' then 'č' else if c = 'Ę' then 'ę'
  else if c = 'Ė' then 'ė' else if c = 'Į' then 'į' else if c = 'Š' then 'š'
  else if c = 'Ų' then 'ų' else if c = 'Ū' then 'ū' else if c = 'Ž' then 'ž'
  else c

/-- Python str.lower() over a whole string. -/
def pyLower (s : String) : String := String.mk (s.toList.map pyLowerChar)

/-- Contiguous-sublist test, Python's `needle in hay` on strings. -/
def listContainsSub [BEq α] : List α → List α → Bool
  | needle, [] => needle.isEmpty
  | needle, c :: rest => needle.isPrefixOf (c :: rest) || listContainsSub needle rest

/-- Python `pat in s` for strings. -/
def strContains (s pat : String) : Bool :=
  listContainsSub pat.toList s.toList

/-- Line 292 of audio_checker.py: the response is judged correct when its
lowercased text contains "correct" but not "incorrect". -/
def fallbackIsCorrect (response_text : String) : Bool :=
  strContains (pyLower response_text) "correct" &&
  !(strContains (pyLower response_text) "incorrect")

/-- Lines 295-305 of audio_checker.py: keyword-matched issue tokens, in the
fixed order the code appends them. -/
def fallbackIssueStrs (response_text : String) : List String :=
  (if strContains (pyLower response_text) "breath"
     then ["audible_breath"] else []) ++
  (if strContains (pyLower response_text) "noise"
     then ["background_noise"] else []) ++
  (if strContains (pyLower response_text) "mouth" ||
      strContains (pyLower response_text) "smack"
     then ["mouth_sounds"] else []) ++
  (if strContains (pyLower response_text) "distort"
     then ["distortion"] else []) ++
  (if strContains (pyLower response_text) "unclear" ||
      strContains (pyLower response_text) "mumbl"
     then ["unclear_speech"] else [])

/-- AudioChecker._parse_text_response (lines 280-314): the heuristic
fallback classifier, returning the result_data dict. -/
def parse_text_response (response_text expected_word : String) :
    List (String × JValue) :=
  [("is_word_correct", .bool (fallbackIsCorrect response_text)),
   ("confidence_score", .num 5 (-1)),
   ("transcript",
     .str (if fallbackIsCorrect response_text then expected_word else "unclear")),
   ("detected_issues", .arr ((fallbackIssueStrs response_text).map JValue.str)),
   ("detailed_feedback", .str response_text),
   ("suggestions",
     .arr [.str "Please review the detailed feedback for improvement suggestions."])]

/-- Python str.find(c): index of the first occurrence, if any. -/
def findIdx : List Char → Char → Option ℕ
  | [], _ => none
  | c :: cs, t => if c = t then some 0 else (findIdx cs t).map (· + 1)

/-- Python str.rfind(c): index of the last occurrence, if any. -/
def rfindIdx (cs : List Char) (t : Char) : Option ℕ :=
  (findIdx cs.reverse t).map (fun i => cs.length - 1 - i)

/-- Lines 229-233 of audio_checker.py: find the first opening brace and the
last closing brace of the (already stripped) response text and slice; none
when `json_start < 0` or `json_end <= json_start` (those paths raise and
fall back). -/
def extractJsonSubstr (response_text : String) : Option String :=
  let cs := response_text.toList
  match findIdx cs '\x7b', rfindIdx cs '\x7d' with
  | some json_start, some jePos =>
      let json_end := jePos + 1
      if json_start < json_end then
        some (String.mk ((cs.drop json_start).take (json_end - json_start)))
      else none
  | some _, none => none
  | none, _ => none

/-- Lines 226-255 of audio_checker.py: strip the raw response, try the
JSON-substring path with defaults filled in, otherwise take the heuristic
fallback. A successful json.loads on a string that starts with an opening
brace is always an object, so the non-object arm is unreachable and routed
to the fallback for totality. -/
def parseResponseData (raw_response expected_word : String) :
    List (String × JValue) :=
  let response_text := pyStrip raw_response
  match extractJsonSubstr response_text with
  | some json_str =>
      match jsonLoads json_str with
      | some (.obj fields) => fillDefaults fields response_text
      | _ => parse_text_response response_text expected_word
  | none => parse_text_response response_text expected_word

/-- Lines 257-264 of audio_checker.py: convert issue tokens to enum
members; an unknown token raises ValueError and is skipped, and a
non-string entry likewise never matches an enum value. -/
def convertIssues (v : Option JValue) : List AudioQualityIssue :=
  match v with
  | some (.arr xs) =>
      xs.filterMap (fun x =>
        match x with
        | .str s => issueOfValue s
        | _ => none)
  | _ => []

/-- Dataclass field coercion: the annotations declare bool/float/str; a
JSON value of the declared type is taken as-is. -/
def jAsBool (v : Option JValue) (d : Bool) : Bool :=
  match v with
  | some (.bool b) => b
  | _ => d

/-- Dataclass field coercion for float fields. -/
def jAsNum (v : Option JValue) (d : ℚ) : ℚ :=
  match v with
  | some (.num m e) => decimalToRat m e
  | _ => d

/-- Dataclass field coercion for str fields. -/
def jAsStr (v : Option JValue) (d : String) : String :=
  match v with
  | some (.str s) => s
  | _ => d

/-- Dataclass field coercion for the suggestions list (string entries). -/
def jAsStrList (v : Option JValue) : List String :=
  match v with
  | some (.arr xs) =>
      xs.filterMap (fun x =>
        match x with
        | .str s => some s
        | _ => none)
  | _ => []

/-- Lines 221-275 of audio_checker.py: turn a raw response text into the
final AudioAnalysisResult (construction of lines 266-274, with the `.get`
defaults of those lines). -/
def analyzeResponse (raw_response expected_word : String) (duration : Option ℚ) :
    AudioAnalysisResult :=
  let rd := parseResponseData raw_response expected_word
  { is_word_correct := jAsBool (jlookup rd "is_word_correct") false
    expected_word := expected_word
    detected_issues := convertIssues (jlookup rd "detected_issues")
    confidence_score := jAsNum (jlookup rd "confidence_score") 0
    transcript := jAsStr (jlookup rd "transcript") ""
    detailed_feedback := jAsStr (jlookup rd "detailed_feedback") ""
    suggestions := jAsStrList (jlookup rd "suggestions")
    audio_duration := duration }

/-- config.py MAX_AUDIO_SIZE_MB. -/
def MAX_AUDIO_SIZE_MB : ℚ := 25

/-- The external effects consulted by check_audio_file: the filesystem
(existence and byte size), the best-effort duration probe, and the remote
OpenAI call returning either a response text or a raised transport error. -/
structure Env where
  fileExists : String → Bool
  fileSizeBytes : String → ℕ
  duration : String → Option ℚ
  remote : String → String → Except String String

/-- The Python exception classes check_audio_file can raise, with their
message. -/
inductive PyError where
  | fileNotFoundError (msg : String)
  | valueError (msg : String)
deriving DecidableEq, Repr

/-- AudioChecker.check_audio_file (lines 142-278) over an explicit
environment: the existence check (lines 163-165) and the size check (lines
167-170) run before the try block; any exception inside the try block is
re-raised as ValueError with the `Error analyzing audio: ` prefix (lines
277-278). The returned Bool records whether the remote call was attempted.
The `%.1f` numeric rendering inside the too-large message is abstracted
away. -/
def check_audio_file (env : Env) (audio_path expected_word : String) :
    Except PyError AudioAnalysisResult × Bool :=
  if !(env.fileExists audio_path) then
    (.error (.fileNotFoundError ("Audio file not found: " ++ audio_path)), false)
  else if (env.fileSizeBytes audio_path : ℚ) / (1024 * 1024) > MAX_AUDIO_SIZE_MB then
    (.error (.valueError ("Audio file too large (max: 25MB)")), false)
  else
    match env.remote audio_path expected_word with
    | .error e => (.error (.valueError ("Error analyzing audio: " ++ e)), true)
    | .ok text =>
        (.ok (analyzeResponse text expected_word (env.duration audio_path)), true)

/-- audio_utils.py LITHUANIAN_CHARS (line 15). -/
def LITHUANIAN_CHARS : List Char := "aąbcčdeęėfghiįyjklmnoprsštuųūvzž".toList

/-- The regex character class kept by line 45 of audio_utils.py: lowercase
ASCII letters, the Lithuanian letters, hyphen, underscore. -/
def allowedChar (c : Char) : Bool :=
  ('a' ≤ c && c ≤ 'z') || LITHUANIAN_CHARS.contains c || c = '-' || c = '_'

/-- Lines 39-45 of audio_utils.py: strip and lowercase, spaces to
underscores, drop every character outside the allowed class. -/
def sanitizedCore (word : String) : List Char :=
  ((pyLower (pyStrip word)).toList.map (fun c => if c = ' ' then '_' else c)).filter
    allowedChar

/-- audio_utils.sanitize_lithuanian_word (lines 29-50): the sanitized core,
rejected (empty result) when nothing remains or more than 100 characters
remain. -/
def sanitize_lithuanian_word (word : String) : String :=
  if (sanitizedCore word).isEmpty || (sanitizedCore word).length > 100 then ""
  else String.mk (sanitizedCore word)

/-- The two shapes returned by AudioChecker.get_quality_summary: the
`error` dict for an empty input (line 362) and the statistics dict of lines
376-384. -/
inductive QualitySummary where
  | noResults (msg : String)
  | summary (total_files : ℕ) (correct_words : ℕ) (word_accuracy_rate : ℚ)
      (average_confidence : ℚ) (common_issues : List (String × ℕ))
      (files_with_issues : ℕ) (clean_files : ℕ)
deriving DecidableEq, Repr

/-- Increment key `k` in the insertion-ordered counts dict
(`issue_counts[k] = issue_counts.get(k, 0) + 1`). -/
def bumpCount (counts : List (String × ℕ)) (k : String) : List (String × ℕ) :=
  match counts with
  | [] => [(k, 1)]
  | (k', n) :: rest =>
      if k' = k then (k', n + 1) :: rest else (k', n) :: bumpCount rest k

/-- Lines 368-371 of audio_checker.py: histogram of issue kinds across all
results, in dict insertion order (first occurrence first). -/
def issueCounts (results : List AudioAnalysisResult) : List (String × ℕ) :=
  results.foldl
    (fun acc r => r.detected_issues.foldl (fun a i => bumpCount a i.value) acc) []

/-- Line 381 of audio_checker.py: sort the issue histogram descending by
count; Python's sorted is stable, as is mergeSort. -/
def sortIssueCounts (counts : List (String × ℕ)) : List (String × ℕ) :=
  counts.mergeSort (fun a b => decide (b.2 ≤ a.2))

/-- AudioChecker.get_quality_summary (lines 351-384). -/
def get_quality_summary (results : List AudioAnalysisResult) : QualitySummary :=
  if results.isEmpty then .noResults "No results to analyze"
  else
    let total_files := results.length
    let correct_words := (results.filter (fun r => r.is_word_correct)).length
    let avg_confidence :=
      (results.map (fun r => r.confidence_score)).sum / (total_files : ℚ)
    .summary total_files correct_words
      ((correct_words : ℚ) / (total_files : ℚ)) avg_confidence
      (sortIssueCounts (issueCounts results))
      ((results.filter (fun r => !r.detected_issues.isEmpty)).length)
      ((results.filter (fun r => r.detected_issues.isEmpty && r.is_word_correct)).length)

/-- Concrete analysis oracle used to witness the batch theorems: the call
on `"a.mp3"` raises, every other call succeeds. -/
def wAnalyze : String → String → Except String AudioAnalysisResult :=
  fun p w =>
    if p = "a.mp3" then .error "No such file" else
    .ok { is_word_correct := true
          expected_word := w
          detected_issues := []
          confidence_score := 1
          transcript := w
          detailed_feedback := "clear"
          suggestions := []
          audio_duration := none }

/-- Concrete two-item batch used to witness the batch theorems. -/
def wFiles : List (String × String) := [("a.mp3", "labas"), ("b.mp3", "duona")]

/-- The exact remote response text of the JSON-path example. -/
def exactResponse : String :=
  "\x7b\"is_word_correct\": true, \"confidence_score\": 0.9, \"transcript\": \"duona\", \"detected_issues\": [], \"detailed_feedback\": \"clear\", \"suggestions\": []\x7d"

/-- The parsed object of exactResponse. -/
def exactFields : List (String × JValue) :=
  [("is_word_correct", .bool true), ("confidence_score", .num 9 (-1)),
   ("transcript", .str "duona"), ("detected_issues", .arr []),
   ("detailed_feedback", .str "clear"), ("suggestions", .arr [])]

/-- A remote response carrying one unknown issue token next to a known
one. -/
def roboticResponse : String :=
  "\x7b\"is_word_correct\": true, \"confidence_score\": 0.9, \"transcript\": \"duona\", \"detected_issues\": [\"robotic_artifact\", \"audible_breath\"], \"detailed_feedback\": \"ok\", \"suggestions\": [\"s1\"]\x7d"

/-- The parsed object of roboticResponse. -/
def roboticFields : List (String × JValue) :=
  [("is_word_correct", .bool true), ("confidence_score", .num 9 (-1)),
   ("transcript", .str "duona"),
   ("detected_issues", .arr [.str "robotic_artifact", .str "audible_breath"]),
   ("detailed_feedback", .str "ok"), ("suggestions", .arr [.str "s1"])]

/-- A plain-prose remote response with no JSON object in it. -/
def proseResponse : String :=
  "The pronunciation was incorrect, a slight breath sound was audible."

/-- A JSON response in which five of the six fixed fields are absent. -/
def minimalResponse : String := "\x7b\"transcript\": \"duona\"\x7d"

/-- The parsed object of minimalResponse. -/
def minimalFields : List (String × JValue) := [("transcript", .str "duona")]

/-- The accuracy-rate component of a quality summary, when there is one. -/
def accuracyOf : QualitySummary → Option ℚ
  | .noResults _ => none
  | .summary _ _ word_accuracy_rate _ _ _ _ => some word_accuracy_rate

/-- The total-files component of a quality summary, when there is one. -/
def totalOf : QualitySummary → Option ℕ
  | .noResults _ => none
  | .summary total_files _ _ _ _ _ _ => some total_files

/-- Concrete environment used to witness the check_audio_file error
theorem: one missing file, one oversized file, one file whose remote call
raises, and one healthy file. -/
def wEnv : Env :=
  { fileExists := fun p => p != "missing.mp3"
    fileSizeBytes := fun p => if p = "big.mp3" then 30 * 1024 * 1024 else 1000
    duration := fun _ => none
    remote := fun p _ =>
      if p = "err.mp3" then .error "Connection error" else .ok exactResponse }

/-- Concrete result list used to witness the summary theorems. -/
def wResults : List AudioAnalysisResult :=
  [errorResult "labas" "No such file",
   { is_word_correct := true
     expected_word := "duona"
     detected_issues := [.AUDIBLE_BREATH]
     confidence_score := 9 / 10
     transcript := "duona"
     detailed_feedback := "clear"
     suggestions := []
     audio_duration := none }]

theorem batch_foldl_eq_map
    (analyze : String → String → Except String AudioAnalysisResult)
    (files : List (String × String)) (init : List AudioAnalysisResult) :
    files.foldl (fun results item => results ++ [checkItem analyze item]) init =
      init ++ files.map (checkItem analyze) := by
  induction files generalizing init with
  | nil => simp
  | cons hd tl ih => simp [List.foldl_cons, ih]

/-- C1: for every oracle behaviour and every ordered item list, the batch
result has exactly the input's length and the result at position `i` is the
per-item outcome of the input item at position `i`. -/
theorem batch_check_audio_files_length_order
    (analyze : String → String → Except String AudioAnalysisResult)
    (files : List (String × String)) :
    (batch_check_audio_files analyze files).length = files.length ∧
    ∀ i : ℕ, (batch_check_audio_files analyze files)[i]? =
      (files[i]?).map (checkItem analyze) := by
  have h : batch_check_audio_files analyze files = files.map (checkItem analyze) := by
    simpa using batch_foldl_eq_map analyze files []
  constructor
  · simp [h]
  · intro i
    simp [h]

/-- C2: an item whose analyze call raises exception text `e` yields, at its
own position, the synthetic result (incorrect, confidence 0, empty
transcript, no issues, feedback carrying the error text, the generic
suggestion), and every other position is still processed normally. -/
theorem batch_check_audio_files_error_item
    (analyze : String → String → Except String AudioAnalysisResult)
    (files : List (String × String)) (i : ℕ) (p w e : String)
    (hitem : files[i]? = some (p, w)) (herr : analyze p w = .error e) :
    (batch_check_audio_files analyze files)[i]? = some (errorResult w e) ∧
    (errorResult w e).is_word_correct = false ∧
    (errorResult w e).confidence_score = 0 ∧
    (errorResult w e).transcript = "" ∧
    (errorResult w e).detected_issues = [] ∧
    (errorResult w e).detailed_feedback = "Error analyzing file: " ++ e ∧
    (errorResult w e).suggestions =
      ["Check if the audio file exists and is readable."] ∧
    ∀ j : ℕ, (batch_check_audio_files analyze files)[j]? =
      (files[j]?).map (checkItem analyze) := by
  have h : batch_check_audio_files analyze files = files.map (checkItem analyze) := by
    simpa using batch_foldl_eq_map analyze files []
  refine ⟨?_, rfl, rfl, rfl, rfl, rfl, rfl, ?_⟩
  · simp [h, hitem, checkItem, herr]
  · intro j
    simp [h]

/-- Witness for C2 at a concrete batch: the first item raises, the second
succeeds. -/
theorem batch_check_audio_files_error_item_witness :
    (batch_check_audio_files wAnalyze wFiles)[0]? =
      some (errorResult "labas" "No such file") ∧
    (errorResult "labas" "No such file").is_word_correct = false ∧
    (errorResult "labas" "No such file").confidence_score = 0 ∧
    (errorResult "labas" "No such file").transcript = "" ∧
    (errorResult "labas" "No such file").detected_issues = [] ∧
    (errorResult "labas" "No such file").detailed_feedback =
      "Error analyzing file: " ++ "No such file" ∧
    (errorResult "labas" "No such file").suggestions =
      ["Check if the audio file exists and is readable."] ∧
    (batch_check_audio_files wAnalyze wFiles)[1]? =
      (wFiles[1]?).map (checkItem wAnalyze) := by
  obtain ⟨g0, g1, g2, g3, g4, g5, g6, g7⟩ :=
    batch_check_audio_files_error_item wAnalyze wFiles 0 "a.mp3" "labas"
      "No such file" rfl (by simp [wAnalyze])
  exact ⟨g0, g1, g2, g3, g4, g5, g6, g7 1⟩

theorem jlookup_append_of_some (l1 l2 : List (String × JValue)) (key : String)
    (v : JValue) (h : jlookup l2 key = some v) :
    jlookup (l1 ++ l2) key = some v := by
  induction l1 with
  | nil => simpa using h
  | cons hd tl ih =>
    obtain ⟨k, w⟩ := hd
    simp only [List.cons_append, jlookup]
    rw [List.append_eq, ih]

theorem jlookup_append_of_none (l1 l2 : List (String × JValue)) (key : String)
    (h : jlookup l2 key = none) :
    jlookup (l1 ++ l2) key = jlookup l1 key := by
  induction l1 with
  | nil => simpa using h
  | cons hd tl ih =>
    obtain ⟨k, w⟩ := hd
    simp only [List.cons_append, jlookup]
    rw [List.append_eq, ih]

theorem jlookup_singleton (k key : String) (d : JValue) :
    jlookup [(k, d)] key = if k = key then some d else none := by
  simp [jlookup]

theorem jlookup_addDefault_self (l : List (String × JValue)) (k : String)
    (d : JValue) :
    jlookup (addDefault l k d) k = some ((jlookup l k).getD d) := by
  unfold addDefault hasKey
  cases h : jlookup l k with
  | some v => simp [h]
  | none =>
    simp only [h, Option.isSome_none, Bool.false_eq_true, if_false, Option.getD_none]
    rw [jlookup_append_of_some]
    simp [jlookup_singleton]

theorem jlookup_addDefault_ne (l : List (String × JValue)) (k : String)
    (d : JValue) (key : String) (h : k ≠ key) :
    jlookup (addDefault l k d) key = jlookup l key := by
  unfold addDefault
  split
  · rfl
  · rw [jlookup_append_of_none]
    simp [jlookup_singleton, h]

theorem fd_is_word_correct (fields : List (String × JValue)) (rt : String) :
    jlookup (fillDefaults fields rt) "is_word_correct" =
      some ((jlookup fields "is_word_correct").getD (.bool false)) := by
  unfold fillDefaults
  rw [jlookup_addDefault_ne _ _ _ _ (by decide),
      jlookup_addDefault_ne _ _ _ _ (by decide),
      jlookup_addDefault_ne _ _ _ _ (by decide),
      jlookup_addDefault_ne _ _ _ _ (by decide),
      jlookup_addDefault_ne _ _ _ _ (by decide),
      jlookup_addDefault_self]

theorem fd_confidence_score (fields : List (String × JValue)) (rt : String) :
    jlookup (fillDefaults fields rt) "confidence_score" =
      some ((jlookup fields "confidence_score").getD (.num 5 (-1))) := by
  unfold fillDefaults
  rw [jlookup_addDefault_ne _ _ _ _ (by decide),
      jlookup_addDefault_ne _ _ _ _ (by decide),
      jlookup_addDefault_ne _ _ _ _ (by decide),
      jlookup_addDefault_ne _ _ _ _ (by decide),
      jlookup_addDefault_self,
      jlookup_addDefault_ne _ _ _ _ (by decide)]

theorem fd_transcript (fields : List (String × JValue)) (rt : String) :
    jlookup (fillDefaults fields rt) "transcript" =
      some ((jlookup fields "transcript").getD (.str "")) := by
  unfold fillDefaults
  rw [jlookup_addDefault_ne _ _ _ _ (by decide),
      jlookup_addDefault_ne _ _ _ _ (by decide),
      jlookup_addDefault_ne _ _ _ _ (by decide),
      jlookup_addDefault_self,
      jlookup_addDefault_ne _ _ _ _ (by decide),
      jlookup_addDefault_ne _ _ _ _ (by decide)]

theorem fd_detected_issues (fields : List (String × JValue)) (rt : String) :
    jlookup (fillDefaults fields rt) "detected_issues" =
      some ((jlookup fields "detected_issues").getD (.arr [])) := by
  unfold fillDefaults
  rw [jlookup_addDefault_ne _ _ _ _ (by decide),
      jlookup_addDefault_ne _ _ _ _ (by decide),
      jlookup_addDefault_self,
      jlookup_addDefault_ne _ _ _ _ (by decide),
      jlookup_addDefault_ne _ _ _ _ (by decide),
      jlookup_addDefault_ne _ _ _ _ (by decide)]

theorem fd_detailed_feedback (fields : List (String × JValue)) (rt : String) :
    jlookup (fillDefaults fields rt) "detailed_feedback" =
      some ((jlookup fields "detailed_feedback").getD (.str rt)) := by
  unfold fillDefaults
  rw [jlookup_addDefault_ne _ _ _ _ (by decide),
      jlookup_addDefault_self,
      jlookup_addDefault_ne _ _ _ _ (by decide),
      jlookup_addDefault_ne _ _ _ _ (by decide),
      jlookup_addDefault_ne _ _ _ _ (by decide),
      jlookup_addDefault_ne _ _ _ _ (by decide)]

theorem fd_suggestions (fields : List (String × JValue)) (rt : String) :
    jlookup (fillDefaults fields rt) "suggestions" =
      some ((jlookup fields "suggestions").getD (.arr [])) := by
  unfold fillDefaults
  rw [jlookup_addDefault_self,
      jlookup_addDefault_ne _ _ _ _ (by decide),
      jlookup_addDefault_ne _ _ _ _ (by decide),
      jlookup_addDefault_ne _ _ _ _ (by decide),
      jlookup_addDefault_ne _ _ _ _ (by decide),
      jlookup_addDefault_ne _ _ _ _ (by decide)]

theorem analyzeResponse_json (raw ew : String) (dur : Option ℚ) (js : String)
    (fields : List (String × JValue))
    (hx : extractJsonSubstr (pyStrip raw) = some js)
    (hp : jsonLoads js = some (.obj fields)) :
    analyzeResponse raw ew dur =
      { is_word_correct :=
          jAsBool (jlookup (fillDefaults fields (pyStrip raw)) "is_word_correct") false
        expected_word := ew
        detected_issues :=
          convertIssues (jlookup (fillDefaults fields (pyStrip raw)) "detected_issues")
        confidence_score :=
          jAsNum (jlookup (fillDefaults fields (pyStrip raw)) "confidence_score") 0
        transcript :=
          jAsStr (jlookup (fillDefaults fields (pyStrip raw)) "transcript") ""
        detailed_feedback :=
          jAsStr (jlookup (fillDefaults fields (pyStrip raw)) "detailed_feedback") ""
        suggestions :=
          jAsStrList (jlookup (fillDefaults fields (pyStrip raw)) "suggestions")
        audio_duration := dur } := by
  simp only [analyzeResponse, parseResponseData, hx, hp]

theorem analyzeResponse_fallback (raw ew : String) (dur : Option ℚ)
    (hfb : extractJsonSubstr (pyStrip raw) = none ∨
      ∃ js, extractJsonSubstr (pyStrip raw) = some js ∧ jsonLoads js = none) :
    analyzeResponse raw ew dur =
      { is_word_correct := fallbackIsCorrect (pyStrip raw)
        expected_word := ew
        detected_issues := (fallbackIssueStrs (pyStrip raw)).filterMap issueOfValue
        confidence_score := decimalToRat 5 (-1)
        transcript := if fallbackIsCorrect (pyStrip raw) then ew else "unclear"
        detailed_feedback := pyStrip raw
        suggestions := ["Please review the detailed feedback for improvement suggestions."]
        audio_duration := dur } := by
  have hres : parseResponseData raw ew = parse_text_response (pyStrip raw) ew := by
    rcases hfb with h | ⟨js, hjs, hnone⟩
    · simp only [parseResponseData, h]
    · simp only [parseResponseData, hjs, hnone]
  have hdi : convertIssues (jlookup (parse_text_response (pyStrip raw) ew)
      "detected_issues") = (fallbackIssueStrs (pyStrip raw)).filterMap issueOfValue := by
    have h1 : jlookup (parse_text_response (pyStrip raw) ew) "detected_issues" =
        some (.arr ((fallbackIssueStrs (pyStrip raw)).map JValue.str)) := rfl
    rw [h1]
    simp only [convertIssues, List.filterMap_map]
    rfl
  simp only [analyzeResponse, hres]
  rw [hdi]
  rfl

/-- C3: on the JSON path (the brace-delimited substring of the stripped
response parses as a JSON object), each of the six fixed fields present in
the object is taken from it, and every absent field gets its documented
default (is_word_correct false, confidence 0.5, empty transcript, no
issues, feedback = raw stripped text, no suggestions); in particular the
exact example response yields is_word_correct true, confidence 0.9,
transcript "duona" and an empty issue list. -/
theorem check_json_fields_and_defaults :
    (∀ raw ew : String, ∀ dur : Option ℚ, ∀ js : String,
      ∀ fields : List (String × JValue),
      extractJsonSubstr (pyStrip raw) = some js →
      jsonLoads js = some (.obj fields) →
      (analyzeResponse raw ew dur).expected_word = ew ∧
      (jlookup fields "is_word_correct" = none →
        (analyzeResponse raw ew dur).is_word_correct = false) ∧
      (∀ b, jlookup fields "is_word_correct" = some (.bool b) →
        (analyzeResponse raw ew dur).is_word_correct = b) ∧
      (jlookup fields "confidence_score" = none →
        (analyzeResponse raw ew dur).confidence_score = 1 / 2) ∧
      (∀ m e, jlookup fields "confidence_score" = some (.num m e) →
        (analyzeResponse raw ew dur).confidence_score = decimalToRat m e) ∧
      (jlookup fields "transcript" = none →
        (analyzeResponse raw ew dur).transcript = "") ∧
      (∀ s, jlookup fields "transcript" = some (.str s) →
        (analyzeResponse raw ew dur).transcript = s) ∧
      (jlookup fields "detected_issues" = none →
        (analyzeResponse raw ew dur).detected_issues = []) ∧
      (jlookup fields "detailed_feedback" = none →
        (analyzeResponse raw ew dur).detailed_feedback = pyStrip raw) ∧
      (∀ s, jlookup fields "detailed_feedback" = some (.str s) →
        (analyzeResponse raw ew dur).detailed_feedback = s) ∧
      (jlookup fields "suggestions" = none →
        (analyzeResponse raw ew dur).suggestions = [])) ∧
    analyzeResponse exactResponse "duona" none =
      { is_word_correct := true
        expected_word := "duona"
        detected_issues := []
        confidence_score := 9 / 10
        transcript := "duona"
        detailed_feedback := "clear"
        suggestions := []
        audio_duration := none } := by
  constructor
  · intro raw ew dur js fields hx hp
    rw [analyzeResponse_json raw ew dur js fields hx hp]
    refine ⟨rfl, ?_, ?_, ?_, ?_, ?_, ?_, ?_, ?_, ?_, ?_⟩
    · intro h
      simp [jAsBool, fd_is_word_correct, h]
    · intro b h
      simp [jAsBool, fd_is_word_correct, h]
    · intro h
      simp only [jAsNum, fd_confidence_score, h, Option.getD_none]
      norm_num [decimalToRat]
    · intro m e h
      simp [jAsNum, fd_confidence_score, h]
    · intro h
      simp [jAsStr, fd_transcript, h]
    · intro s h
      simp [jAsStr, fd_transcript, h]
    · intro h
      simp [convertIssues, fd_detected_issues, h]
    · intro h
      simp [jAsStr, fd_detailed_feedback, h]
    · intro s h
      simp [jAsStr, fd_detailed_feedback, h]
    · intro h
      simp [jAsStrList, fd_suggestions, h]
  · have h : analyzeResponse exactResponse "duona" none =
        { is_word_correct := true
          expected_word := "duona"
          detected_issues := []
          confidence_score := decimalToRat 9 (-1)
          transcript := "duona"
          detailed_feedback := "clear"
          suggestions := []
          audio_duration := none } := rfl
    rw [h]
    simp only [AudioAnalysisResult.mk.injEq]
    norm_num [decimalToRat]

/-- Witness for C3 at a response where five fields are absent and one is
present. -/
theorem check_json_fields_and_defaults_witness :
    (analyzeResponse minimalResponse "duona" none).is_word_correct = false ∧
    (analyzeResponse minimalResponse "duona" none).confidence_score = 1 / 2 ∧
    (analyzeResponse minimalResponse "duona" none).transcript = "duona" ∧
    (analyzeResponse minimalResponse "duona" none).detected_issues = [] ∧
    (analyzeResponse minimalResponse "duona" none).detailed_feedback =
      minimalResponse ∧
    (analyzeResponse minimalResponse "duona" none).suggestions = [] := by
  obtain ⟨hgen, _⟩ := check_json_fields_and_defaults
  obtain ⟨hew, h1, h2, h3, h4, h5, h6, h7, h8, h9, h10⟩ :=
    hgen minimalResponse "duona" none minimalResponse minimalFields rfl rfl
  exact ⟨h1 rfl, h3 rfl, h6 "duona" rfl, h7 rfl,
    (h8 rfl).trans (show pyStrip minimalResponse = minimalResponse from rfl), h10 rfl⟩

theorem fallbackIssues_eq (t : String) :
    (fallbackIssueStrs t).filterMap issueOfValue =
      (if strContains (pyLower t) "breath"
         then [AudioQualityIssue.AUDIBLE_BREATH] else []) ++
      (if strContains (pyLower t) "noise"
         then [AudioQualityIssue.BACKGROUND_NOISE] else []) ++
      (if strContains (pyLower t) "mouth" || strContains (pyLower t) "smack"
         then [AudioQualityIssue.MOUTH_SOUNDS] else []) ++
      (if strContains (pyLower t) "distort"
         then [AudioQualityIssue.DISTORTION] else []) ++
      (if strContains (pyLower t) "unclear" || strContains (pyLower t) "mumbl"
         then [AudioQualityIssue.UNCLEAR_SPEECH] else []) := by
  unfold fallbackIssueStrs
  simp only [List.filterMap_append, apply_ite (List.filterMap issueOfValue)]
  rfl

/-- C4: when no brace span is found, or the JSON parse fails, the heuristic
fallback judges the word correct exactly when the lowercased text contains
"correct" but not "incorrect"; keywords map to the five issue kinds in a
fixed order; confidence is 0.5; the transcript is the expected word when
judged correct, else "unclear"; in particular the prose example containing
"incorrect, a slight breath sound was audible" is judged incorrect with
audible_breath detected. -/
theorem fallback_heuristic_classifier :
    (∀ raw ew : String, ∀ dur : Option ℚ,
      (extractJsonSubstr (pyStrip raw) = none ∨
        ∃ js, extractJsonSubstr (pyStrip raw) = some js ∧ jsonLoads js = none) →
      ((analyzeResponse raw ew dur).is_word_correct =
        (strContains (pyLower (pyStrip raw)) "correct" &&
         !(strContains (pyLower (pyStrip raw)) "incorrect"))) ∧
      (analyzeResponse raw ew dur).confidence_score = 1 / 2 ∧
      ((analyzeResponse raw ew dur).transcript =
        if strContains (pyLower (pyStrip raw)) "correct" &&
           !(strContains (pyLower (pyStrip raw)) "incorrect") then ew
        else "unclear") ∧
      (analyzeResponse raw ew dur).detected_issues =
        (if strContains (pyLower (pyStrip raw)) "breath"
           then [AudioQualityIssue.AUDIBLE_BREATH] else []) ++
        (if strContains (pyLower (pyStrip raw)) "noise"
           then [AudioQualityIssue.BACKGROUND_NOISE] else []) ++
        (if strContains (pyLower (pyStrip raw)) "mouth" ||
            strContains (pyLower (pyStrip raw)) "smack"
           then [AudioQualityIssue.MOUTH_SOUNDS] else []) ++
        (if strContains (pyLower (pyStrip raw)) "distort"
           then [AudioQualityIssue.DISTORTION] else []) ++
        (if strContains (pyLower (pyStrip raw)) "unclear" ||
            strContains (pyLower (pyStrip raw)) "mumbl"
           then [AudioQualityIssue.UNCLEAR_SPEECH] else [])) ∧
    (analyzeResponse proseResponse "duona" none).is_word_correct = false ∧
    AudioQualityIssue.AUDIBLE_BREATH ∈
      (analyzeResponse proseResponse "duona" none).detected_issues := by
  refine ⟨?_, ?_, ?_⟩
  · intro raw ew dur hfb
    rw [analyzeResponse_fallback raw ew dur hfb]
    exact ⟨rfl, by norm_num [decimalToRat], rfl, fallbackIssues_eq (pyStrip raw)⟩
  · decide
  · decide

/-- Witness for C4 at the prose response (which has no brace span). -/
theorem fallback_heuristic_classifier_witness :
    (analyzeResponse proseResponse "labas" none).is_word_correct =
      (strContains (pyLower (pyStrip proseResponse)) "correct" &&
       !(strContains (pyLower (pyStrip proseResponse)) "incorrect")) ∧
    (analyzeResponse proseResponse "labas" none).confidence_score = 1 / 2 := by
  obtain ⟨hgen, _, _⟩ := fallback_heuristic_classifier
  obtain ⟨hc, hconf, _⟩ := hgen proseResponse "labas" none (Or.inl rfl)
  exact ⟨hc, hconf⟩

theorem audio_too_large_msg_ne (e : String) :
    "Audio file too large (max: 25MB)" ≠ "Error analyzing audio: " ++ e := by
  intro h
  have hA : ("Audio file too large (max: 25MB)" : String).data.head? = some 'A' := rfl
  have hE : ("Error analyzing audio: " ++ e : String).data.head? = some 'E' := by
    rw [String.data_append]
    rfl
  rw [h, hE] at hA
  exact absurd hA (by decide)

/-- C5: a missing file fails with FileNotFoundError and an oversized file
with the too-large ValueError, both before the remote call is attempted
(second component false); an error raised during the remote call is
re-raised as the single wrapped ValueError, which is the only error shape
surfaced once the remote call was attempted; the three error conditions
are pairwise distinct. -/
theorem check_audio_file_error_taxonomy :
    (∀ env : Env, ∀ p w : String, env.fileExists p = false →
      check_audio_file env p w =
        (.error (.fileNotFoundError ("Audio file not found: " ++ p)), false)) ∧
    (∀ env : Env, ∀ p w : String, env.fileExists p = true →
      (env.fileSizeBytes p : ℚ) / (1024 * 1024) > MAX_AUDIO_SIZE_MB →
      check_audio_file env p w =
        (.error (.valueError "Audio file too large (max: 25MB)"), false)) ∧
    (∀ env : Env, ∀ p w e : String, env.fileExists p = true →
      ¬((env.fileSizeBytes p : ℚ) / (1024 * 1024) > MAX_AUDIO_SIZE_MB) →
      env.remote p w = .error e →
      check_audio_file env p w =
        (.error (.valueError ("Error analyzing audio: " ++ e)), true)) ∧
    (∀ env : Env, ∀ p w : String, ∀ err : PyError,
      check_audio_file env p w = (.error err, true) →
      ∃ m, err = .valueError ("Error analyzing audio: " ++ m)) ∧
    (∀ e m : String,
      PyError.fileNotFoundError m ≠
        PyError.valueError "Audio file too large (max: 25MB)" ∧
      PyError.fileNotFoundError m ≠
        PyError.valueError ("Error analyzing audio: " ++ e) ∧
      PyError.valueError "Audio file too large (max: 25MB)" ≠
        PyError.valueError ("Error analyzing audio: " ++ e)) := by
  refine ⟨?_, ?_, ?_, ?_, ?_⟩
  · intro env p w h
    simp [check_audio_file, h]
  · intro env p w h1 h2
    simp [check_audio_file, h1, h2]
  · intro env p w e h1 h2 h3
    simp [check_audio_file, h1, h2, h3]
  · intro env p w err h
    by_cases h1 : env.fileExists p = true
    · by_cases h2 : (env.fileSizeBytes p : ℚ) / (1024 * 1024) > MAX_AUDIO_SIZE_MB
      · simp [check_audio_file, h1, h2] at h
      · cases h3 : env.remote p w with
        | error e =>
          have hc : check_audio_file env p w =
              (.error (.valueError ("Error analyzing audio: " ++ e)), true) := by
            simp [check_audio_file, h1, h2, h3]
          rw [hc] at h
          injection h with h4 h5
          injection h4 with h6
          exact ⟨e, h6.symm⟩
        | ok t =>
          simp [check_audio_file, h1, h2, h3] at h
    · simp only [Bool.not_eq_true] at h1
      simp [check_audio_file, h1] at h
  · intro e m
    refine ⟨by simp, by simp, ?_⟩
    intro h
    exact audio_too_large_msg_ne e (by injection h)

/-- Witness for C5 over the concrete environment: a missing file, an
oversized file and a file whose remote call raises. -/
theorem check_audio_file_error_taxonomy_witness :
    check_audio_file wEnv "missing.mp3" "labas" =
      (.error (.fileNotFoundError ("Audio file not found: " ++ "missing.mp3")),
        false) ∧
    check_audio_file wEnv "big.mp3" "labas" =
      (.error (.valueError "Audio file too large (max: 25MB)"), false) ∧
    check_audio_file wEnv "err.mp3" "labas" =
      (.error (.valueError ("Error analyzing audio: " ++ "Connection error")),
        true) := by
  obtain ⟨hfnf, hbig, herr, _, _⟩ := check_audio_file_error_taxonomy
  refine ⟨hfnf wEnv "missing.mp3" "labas" rfl, ?_, ?_⟩
  · refine hbig wEnv "big.mp3" "labas" rfl ?_
    have hsz : wEnv.fileSizeBytes "big.mp3" = 31457280 := rfl
    rw [hsz]
    norm_num [MAX_AUDIO_SIZE_MB]
  · refine herr wEnv "err.mp3" "labas" "Connection error" rfl ?_ rfl
    have hsz : wEnv.fileSizeBytes "err.mp3" = 1000 := rfl
    rw [hsz]
    norm_num [MAX_AUDIO_SIZE_MB]

/-- C6: an issue token outside the closed enumeration is silently dropped
by the enum-conversion step, while recognized tokens are kept in order and
all other well-formed fields are preserved; in particular the response
declaring ["robotic_artifact", "audible_breath"] yields exactly
[AUDIBLE_BREATH] next to the other fields unchanged. -/
theorem unknown_issue_tokens_dropped :
    (∀ raw ew : String, ∀ dur : Option ℚ, ∀ js : String,
      ∀ fields : List (String × JValue), ∀ xs : List JValue,
      extractJsonSubstr (pyStrip raw) = some js →
      jsonLoads js = some (.obj fields) →
      jlookup fields "detected_issues" = some (.arr xs) →
      (analyzeResponse raw ew dur).detected_issues =
        xs.filterMap (fun x => match x with
          | JValue.str s => issueOfValue s
          | _ => none) ∧
      (∀ s i, JValue.str s ∈ xs → issueOfValue s = some i →
        i ∈ (analyzeResponse raw ew dur).detected_issues)) ∧
    analyzeResponse roboticResponse "duona" none =
      { is_word_correct := true
        expected_word := "duona"
        detected_issues := [.AUDIBLE_BREATH]
        confidence_score := 9 / 10
        transcript := "duona"
        detailed_feedback := "ok"
        suggestions := ["s1"]
        audio_duration := none } := by
  constructor
  · intro raw ew dur js fields xs hx hp hdi
    have hre := analyzeResponse_json raw ew dur js fields hx hp
    have heq : (analyzeResponse raw ew dur).detected_issues =
        xs.filterMap (fun x => match x with
          | JValue.str s => issueOfValue s
          | _ => none) := by
      rw [hre]
      simp [convertIssues, fd_detected_issues, hdi]
    refine ⟨heq, ?_⟩
    intro s i hmem hval
    rw [heq]
    exact List.mem_filterMap.mpr ⟨JValue.str s, hmem, by simp [hval]⟩
  · have h : analyzeResponse roboticResponse "duona" none =
        { is_word_correct := true
          expected_word := "duona"
          detected_issues := [.AUDIBLE_BREATH]
          confidence_score := decimalToRat 9 (-1)
          transcript := "duona"
          detailed_feedback := "ok"
          suggestions := ["s1"]
          audio_duration := none } := rfl
    rw [h]
    simp only [AudioAnalysisResult.mk.injEq]
    norm_num [decimalToRat]

/-- Witness for C6 at the response containing the unknown token
"robotic_artifact" next to "audible_breath". -/
theorem unknown_issue_tokens_dropped_witness :
    (analyzeResponse roboticResponse "duona" none).detected_issues =
      [JValue.str "robotic_artifact", JValue.str "audible_breath"].filterMap
        (fun x => match x with
          | JValue.str s => issueOfValue s
          | _ => none) ∧
    AudioQualityIssue.AUDIBLE_BREATH ∈
      (analyzeResponse roboticResponse "duona" none).detected_issues := by
  obtain ⟨hgen, _⟩ := unknown_issue_tokens_dropped
  obtain ⟨heq, hpres⟩ := hgen roboticResponse "duona" none roboticResponse
    roboticFields [JValue.str "robotic_artifact", JValue.str "audible_breath"]
    rfl rfl rfl
  exact ⟨heq, hpres "audible_breath" .AUDIBLE_BREATH
    (List.Mem.tail _ (List.Mem.head _)) rfl⟩

/-- C7: for every non-empty result list the reported accuracy rate equals
the number of results flagged correct divided by the total count. -/
theorem get_quality_summary_accuracy (results : List AudioAnalysisResult)
    (h : results ≠ []) :
    accuracyOf (get_quality_summary results) =
      some ((results.countP (fun r => r.is_word_correct) : ℚ) /
        (results.length : ℚ)) := by
  have hne : results.isEmpty = false := by
    cases results with
    | nil => exact absurd rfl h
    | cons a l => rfl
  simp only [get_quality_summary, hne, Bool.false_eq_true, if_false]
  simp [accuracyOf, List.countP_eq_length_filter]

/-- Witness for C7 at a concrete two-element result list. -/
theorem get_quality_summary_accuracy_witness :
    accuracyOf (get_quality_summary wResults) =
      some ((wResults.countP (fun r => r.is_word_correct) : ℚ) /
        (wResults.length : ℚ)) :=
  get_quality_summary_accuracy wResults (by simp [wResults])

/-- C8: the empty list yields the explicit "no results" marker, and every
non-empty list yields a statistics summary whose total count (the only
divisor used in the function) equals the positive input length, so the
function is total and never divides by zero. -/
theorem get_quality_summary_empty_marker :
    get_quality_summary [] = .noResults "No results to analyze" ∧
    ∀ results : List AudioAnalysisResult, results ≠ [] →
      totalOf (get_quality_summary results) = some results.length ∧
      0 < results.length := by
  constructor
  · rfl
  · intro results h
    have hne : results.isEmpty = false := by
      cases results with
      | nil => exact absurd rfl h
      | cons a l => rfl
    constructor
    · simp only [get_quality_summary, hne, Bool.false_eq_true, if_false]
      rfl
    · exact List.length_pos.mpr h

/-- Witness for C8: the empty marker plus a concrete non-empty summary. -/
theorem get_quality_summary_empty_marker_witness :
    get_quality_summary [] = .noResults "No results to analyze" ∧
    totalOf (get_quality_summary wResults) = some wResults.length ∧
    0 < wResults.length :=
  ⟨get_quality_summary_empty_marker.1,
   get_quality_summary_empty_marker.2 wResults (by simp [wResults])⟩

theorem lith_chars_facts :
    ∀ c ∈ LITHUANIAN_CHARS, allowedChar c = true ∧ c ≠ ' ' ∧ c ≠ '_' := by
  decide

theorem count_map_underscore (l : List Char) (c : Char) (h1 : c ≠ ' ')
    (h2 : c ≠ '_') :
    (l.map (fun x => if x = ' ' then '_' else x)).count c = l.count c := by
  induction l with
  | nil => rfl
  | cons a l ih =>
    simp only [List.map_cons, List.count_cons, ih]
    by_cases ha : a = ' '
    · subst ha
      simp [Ne.symm h1, Ne.symm h2]
    · simp [ha]

/-- C9: a non-rejected sanitizer output has between 1 and 100 characters,
consists only of allowed characters (lowercase ASCII letters, Lithuanian
letters, hyphen, underscore) and contains no space; an empty or
over-100-character sanitized core is rejected as ""; and every Lithuanian
diacritic of the lowercased stripped input is preserved with its
multiplicity. -/
theorem sanitize_lithuanian_word_spec :
    (∀ w : String, sanitize_lithuanian_word w ≠ "" →
      1 ≤ (sanitize_lithuanian_word w).length ∧
      (sanitize_lithuanian_word w).length ≤ 100 ∧
      (∀ c ∈ (sanitize_lithuanian_word w).toList, allowedChar c = true) ∧
      ' ' ∉ (sanitize_lithuanian_word w).toList) ∧
    (∀ w : String, sanitizedCore w = [] → sanitize_lithuanian_word w = "") ∧
    (∀ w : String, 100 < (sanitizedCore w).length →
      sanitize_lithuanian_word w = "") ∧
    (∀ w : String, ∀ c ∈ LITHUANIAN_CHARS, sanitize_lithuanian_word w ≠ "" →
      (sanitize_lithuanian_word w).toList.count c =
        (pyLower (pyStrip w)).toList.count c) := by
  have key : ∀ w : String, sanitize_lithuanian_word w ≠ "" →
      sanitize_lithuanian_word w = String.mk (sanitizedCore w) ∧
      sanitizedCore w ≠ [] ∧ (sanitizedCore w).length ≤ 100 := by
    intro w h
    unfold sanitize_lithuanian_word at h ⊢
    split at h
    · exact absurd rfl h
    · rename_i hcond
      rw [Bool.or_eq_true, not_or] at hcond
      obtain ⟨he, hl⟩ := hcond
      refine ⟨?_, ?_, ?_⟩
      · rw [if_neg ?_]
        rw [Bool.or_eq_true, not_or]
        exact ⟨he, hl⟩
      · intro hnil
        exact he (by simp [hnil])
      · by_contra hgt
        exact hl (by simpa using Nat.lt_of_not_le hgt)
  refine ⟨?_, ?_, ?_, ?_⟩
  · intro w h
    obtain ⟨heq, hne, hle⟩ := key w h
    have htl : (sanitize_lithuanian_word w).toList = sanitizedCore w := by
      rw [heq]
      rfl
    have hlen : (sanitize_lithuanian_word w).length = (sanitizedCore w).length := by
      rw [heq]
      rfl
    refine ⟨?_, ?_, ?_, ?_⟩
    · rw [hlen]
      exact List.length_pos.mpr hne
    · rw [hlen]
      exact hle
    · intro c hc
      rw [htl] at hc
      exact List.of_mem_filter hc
    · intro hc
      rw [htl] at hc
      have := List.of_mem_filter hc
      exact absurd this (by decide)
  · intro w h
    simp [sanitize_lithuanian_word, h]
  · intro w h
    simp [sanitize_lithuanian_word, h]
  · intro w c hcl h
    obtain ⟨heq, -, -⟩ := key w h
    obtain ⟨hall, hsp, hus⟩ := lith_chars_facts c hcl
    have htl : (sanitize_lithuanian_word w).toList = sanitizedCore w := by
      rw [heq]
      rfl
    rw [htl]
    unfold sanitizedCore
    rw [List.count_filter (by simpa using hall)]
    exact count_map_underscore _ _ hsp hus

/-- Witness for C9 at concrete inputs: an accepted phrase with a
diacritic, a rejected symbols-only input, a rejected over-long input, and
diacritic preservation. -/
theorem sanitize_lithuanian_word_spec_witness :
    1 ≤ (sanitize_lithuanian_word "Ąžuolas medis").length ∧
    (sanitize_lithuanian_word "Ąžuolas medis").length ≤ 100 ∧
    sanitize_lithuanian_word "!!!" = "" ∧
    sanitize_lithuanian_word (String.mk (List.replicate 101 'a')) = "" ∧
    (sanitize_lithuanian_word "Ąžuolas").toList.count 'ą' =
      (pyLower (pyStrip "Ąžuolas")).toList.count 'ą' := by
  obtain ⟨h1, h2, h3, h4⟩ := sanitize_lithuanian_word_spec
  obtain ⟨ha, hb, -, -⟩ := h1 "Ąžuolas medis" (by decide)
  exact ⟨ha, hb, h2 "!!!" (by decide),
    h3 (String.mk (List.replicate 101 'a')) (by decide),
    h4 "Ąžuolas" 'ą' (by decide) (by decide)⟩

theorem mem_ite_singleton {α : Type} {a x : α} {p : Prop} [Decidable p]
    (h : a ∈ (if p then [x] else [])) : a = x := by
  split at h
  · simpa using h
  · simp at h

/-- C10: on the fallback path the detected issues are drawn only from the
five keyword-matched kinds, so pronunciation_error, word_mismatch and
volume_inconsistency are unreachable whenever the JSON parse path fails. -/
theorem fallback_issue_kinds_closed :
    ∀ raw ew : String, ∀ dur : Option ℚ,
      (extractJsonSubstr (pyStrip raw) = none ∨
        ∃ js, extractJsonSubstr (pyStrip raw) = some js ∧ jsonLoads js = none) →
      (∀ i ∈ (analyzeResponse raw ew dur).detected_issues,
        i = .AUDIBLE_BREATH ∨ i = .BACKGROUND_NOISE ∨ i = .MOUTH_SOUNDS ∨
        i = .DISTORTION ∨ i = .UNCLEAR_SPEECH) ∧
      AudioQualityIssue.PRONUNCIATION_ERROR ∉
        (analyzeResponse raw ew dur).detected_issues ∧
      AudioQualityIssue.WORD_MISMATCH ∉
        (analyzeResponse raw ew dur).detected_issues ∧
      AudioQualityIssue.VOLUME_INCONSISTENCY ∉
        (analyzeResponse raw ew dur).detected_issues := by
  intro raw ew dur hfb
  have hmem : ∀ i ∈ (analyzeResponse raw ew dur).detected_issues,
      i = .AUDIBLE_BREATH ∨ i = .BACKGROUND_NOISE ∨ i = .MOUTH_SOUNDS ∨
      i = .DISTORTION ∨ i = .UNCLEAR_SPEECH := by
    intro i hi
    rw [analyzeResponse_fallback raw ew dur hfb] at hi
    simp only [fallbackIssues_eq, List.mem_append] at hi
    rcases hi with ((((h | h) | h) | h) | h)
    · exact Or.inl (mem_ite_singleton h)
    · exact Or.inr (Or.inl (mem_ite_singleton h))
    · exact Or.inr (Or.inr (Or.inl (mem_ite_singleton h)))
    · exact Or.inr (Or.inr (Or.inr (Or.inl (mem_ite_singleton h))))
    · exact Or.inr (Or.inr (Or.inr (Or.inr (mem_ite_singleton h))))
  refine ⟨hmem, ?_, ?_, ?_⟩
  · intro hin
    rcases hmem _ hin with h | h | h | h | h <;> simp_all
  · intro hin
    rcases hmem _ hin with h | h | h | h | h <;> simp_all
  · intro hin
    rcases hmem _ hin with h | h | h | h | h <;> simp_all

/-- Witness for C10 at the prose response. -/
theorem fallback_issue_kinds_closed_witness :
    AudioQualityIssue.PRONUNCIATION_ERROR ∉
      (analyzeResponse proseResponse "duona" none).detected_issues ∧
    AudioQualityIssue.WORD_MISMATCH ∉
      (analyzeResponse proseResponse "duona" none).detected_issues ∧
    AudioQualityIssue.VOLUME_INCONSISTENCY ∉
      (analyzeResponse proseResponse "duona" none).detected_issues :=
  (fallback_issue_kinds_closed proseResponse "duona" none (Or.inl rfl)).2

end Ankaido
